import Mathlib

/-!
Shallow embedding of the AllSports backend (Express + Sequelize) routes:
`routes/User.route.js` (user registration/login and category CRUD) and the
product route file, together with the authentication/authorization gate.

The middleware files `middelware/auth.js` (authenticateToken) and
`middelware/authorization.js` (authorizeRoles) are not part of the given
sources; those two components are modelled from the spec, as marked on their
definitions.  Everything else is translated from the JavaScript source.
-/

namespace AllSports

/-- A JavaScript `Error`-like object as it would be serialized into a response
body by `res.json({err})`: name, message and stack trace. -/
structure JsError where
  name : String
  message : String
  stack : String
deriving DecidableEq, Repr

/-- The stored form of the `password` column.  bcrypt output is a tagged,
self-describing string (`$2b$<cost>$<salt><digest>`), so the embedding keeps
the hash as a distinct constructor carrying the cost, the per-call salt and
the plaintext it was derived from; `plain` is any other (non-bcrypt) string. -/
inductive PasswordField where
  | plain (s : String)
  | bcryptHash (cost : Nat) (salt : Nat) (plaintext : String)
deriving DecidableEq, Repr

/-- A user row of the `User` model: {id, name, email, password, role}. -/
structure UserRec where
  id : Nat
  name : String
  email : String
  password : PasswordField
  role : String
deriving DecidableEq, Repr

/-- The signed JWT produced by `jwt.sign({id, role}, SECRET_KEY, {expiresIn: "1h"})`:
its decoded claims (`id`, `role`, `exp` in epoch seconds) plus the secret the
signature binds it to. -/
structure Token where
  id : Nat
  role : String
  exp : Nat
  secret : String
deriving DecidableEq, Repr

/-- The identity `{id, role}` decoded from a verified token and attached to the
request context for the role authorizer and handlers. -/
structure Identity where
  id : Nat
  role : String
deriving DecidableEq, Repr

/-- A category row of the `Category` model. -/
structure CategoryRec where
  id : Nat
  name : String
deriving DecidableEq, Repr

/-- A product row of the `Product` model. -/
structure ProductRec where
  id : Nat
  name : String
  description : String
  price : Int
  categoryId : Nat
deriving DecidableEq, Repr

/-- The response bodies the embedded handlers produce. -/
inductive Body where
  | msg (message : String)
  | userBody (user : UserRec)
  | userToken (user : UserRec) (token : Token)
  | errRaw (err : JsError)
  | errMsg (error : String)
  | categories (cs : List CategoryRec)
  | productOpt (product : Option ProductRec)
deriving DecidableEq, Repr

/-- An HTTP response: status code and JSON body. -/
structure HttpResponse where
  status : Nat
  body : Body
deriving DecidableEq, Repr

/-- What a request handler can do: send a response, or let an exception escape
the handler uncaught (an `async` rejection Express 4 does not catch). -/
inductive Outcome where
  | response (r : HttpResponse)
  | uncaught (e : JsError)
deriving DecidableEq, Repr

/-- Whether a body is the serialization of a raw caught exception object,
as produced by `res.json({err})`. -/
def Body.carriesRawError : Body → Bool
  | .errRaw _ => true
  | _ => false

/-- The user table; `User.findOne({where: {email}})` is `List.find?` on it. -/
abbrev Store := List UserRec

/-- `User.findOne({where: {email}})`. -/
def findByEmail (store : Store) (email : String) : Option UserRec :=
  store.find? (fun u => u.email = email)

/-- The rejection node-bcrypt raises when its data argument is missing or not
a string. -/
def bcryptMissingDataError : JsError :=
  ⟨"Error", "data and salt arguments required",
   "Error: data and salt arguments required\n    at Object.hash ..."⟩

/-- `bcrypt.hash(password, 10)` as called by the register handler: the argument
is the raw `req.body.password`, which may be `undefined` (`none`).  With a
missing/non-string argument bcrypt rejects ("data and salt arguments
required"); otherwise it produces a salted cost-10 hash. -/
def bcryptHash (salt : Nat) (password : Option String) : Except JsError PasswordField :=
  match password with
  | none => .error bcryptMissingDataError
  | some s => .ok (.bcryptHash 10 salt s)

/-- `bcrypt.compare(plaintext, storedForm)`: true exactly when the stored form
is a bcrypt hash of the same plaintext; on a non-bcrypt (corrupt) stored form
it resolves to false rather than throwing. -/
def bcryptCompare (plaintext : String) (stored : PasswordField) : Bool :=
  match stored with
  | .bcryptHash _ _ p => plaintext = p
  | .plain _ => false

/-- Modelled from the spec: the Password Hasher's `hash` contract (§4.1) —
the hasher implementation (the bcrypt library) is not among the sources.
Hashing a malformed (missing/non-string or empty) input fails with an
InvalidInput error; otherwise it yields a salted hash of the plaintext. -/
def hasherHash (salt : Nat) (input : Option String) : Except JsError PasswordField :=
  match input with
  | none => .error ⟨"InvalidInput", "data and salt arguments required", ""⟩
  | some s =>
    if s = "" then .error ⟨"InvalidInput", "empty plaintext", ""⟩
    else .ok (.bcryptHash 10 salt s)

/-- The body of a POST /user/register request:
`const {name, email, password, role} = req.body`.  The password is kept as an
`Option` because `req.body.password` may be absent (`undefined`). -/
structure RegisterReq where
  name : String
  email : String
  password : Option String
  role : String
deriving DecidableEq, Repr

/-- `userRoute.post('/register')`.  Faithful to the source order: the
duplicate-email lookup and `bcrypt.hash` happen BEFORE the try block, so a
hashing rejection escapes the handler uncaught; only `User.create` is inside
the try.  `createFail` is `some e` when `User.create` throws `e` (a store
error); `nextId` is the id the store would assign.  Returns the handler
outcome and the resulting user table. -/
def register (salt : Nat) (createFail : Option JsError) (nextId : Nat)
    (store : Store) (req : RegisterReq) : Outcome × Store :=
  match findByEmail store req.email with
  | some _ => (.response ⟨400, .msg "User already exists"⟩, store)
  | none =>
    match bcryptHash salt req.password with
    | .error e => (.uncaught e, store)
    | .ok h =>
      match createFail with
      | some e => (.response ⟨500, .errRaw e⟩, store)
      | none =>
        let user : UserRec := ⟨nextId, req.name, req.email, h, req.role⟩
        (.response ⟨201, .userBody user⟩, store ++ [user])

/-- The token time-to-live: `expiresIn: "1h"` in `jwt.sign`, a string literal
in the source — 3600 seconds, fixed, not read from any configuration. -/
def tokenTTLSeconds : Nat := 3600

/-- `jwt.sign({id: user.id, role: user.role}, process.env.SECRET_KEY,
{expiresIn: "1h"})`: the issued token carries the user's id and role as
claims, expires `tokenTTLSeconds` after issuance (no ttl parameter exists),
and is signed with the process secret. -/
def issueToken (secret : String) (id : Nat) (role : String) (now : Nat) : Token :=
  ⟨id, role, now + tokenTTLSeconds, secret⟩

/-- The body of a POST /user/login request: `const {email, password} = req.body`. -/
structure LoginReq where
  email : String
  password : String
deriving DecidableEq, Repr

/-- `userRoute.post('/login')`.  Looks the user up by email inside a try
block (`dbFail = some e` when `User.findOne` throws `e`); on a found user,
`bcrypt.compare` decides between issuing a token (200 `{user, token}`) and
401 `{message: "Invalid credentials"}`; a missing user yields the same 401
body; a thrown store error is caught and answered 500 `{err}`. -/
def login (secret : String) (now : Nat) (dbFail : Option JsError)
    (store : Store) (req : LoginReq) : Outcome :=
  match dbFail with
  | some e => .response ⟨500, .errRaw e⟩
  | none =>
    match findByEmail store req.email with
    | some user =>
      if bcryptCompare req.password user.password then
        .response ⟨200, .userToken user (issueToken secret user.id user.role now)⟩
      else
        .response ⟨401, .msg "Invalid credentials"⟩
    | none => .response ⟨401, .msg "Invalid credentials"⟩

/-- The gate's uniform authentication error kind. -/
inductive AuthError where
  | invalid
deriving DecidableEq, Repr

/-- Modelled from the spec: `authenticateToken` (Token Verifier middleware of
`middelware/auth.js`, not among the sources).  §4.3: decode and check the
signature against the process secret, check expiry against the current time;
on success produce the identity {id, role}; on any failure (missing token,
bad signature, expired) a uniform AuthError.  A JWT is expired once the
current time reaches its `exp` claim. -/
def verifyToken (secret : String) (now : Nat) (tok : Option Token) :
    Except AuthError Identity :=
  match tok with
  | none => .error .invalid
  | some t =>
    if t.secret = secret then
      if now < t.exp then .ok ⟨t.id, t.role⟩
      else .error .invalid
    else .error .invalid

/-- Modelled from the spec: `authorizeRoles` (Role Authorizer middleware of
`middelware/authorization.js`, not among the sources).  §4.4: pure predicate,
permit exactly when `identity.role ∈ allowedRoles`. -/
def authorizeRoles (allowedRoles : List String) (ident : Identity) : Bool :=
  allowedRoles.contains ident.role

/-- The middleware pipeline of a route registered as
`route(path, authenticateToken, authorizeRoles(allowed), handler)`: the
verifier short-circuits with 401 before the handler on any token failure, the
authorizer short-circuits with 403 on a disallowed role, otherwise the
handler runs on the attached identity. -/
def runProtected (secret : String) (now : Nat) (allowedRoles : List String)
    (tok : Option Token) (handler : Identity → Outcome) : Outcome :=
  match verifyToken secret now tok with
  | .error _ => .response ⟨401, .msg "Unauthorized"⟩
  | .ok ident =>
    if authorizeRoles allowedRoles ident then handler ident
    else .response ⟨403, .msg "Forbidden"⟩

/-- The category table; `Category.findAll()` returns the whole list and
`Category.destroy({where: {id}})` removes the rows matching `id`, returning
the removed-row count. -/
abbrev CategoryStore := List CategoryRec

/-- The handler body of `categoryRoute.get("/")`: `Category.findAll()`; on an
empty result (`!categories.length`) 404 `{message: "No categories found"}`,
otherwise 200 `{categories}`; a thrown store error is caught and answered
500 `{error: err.message}`. -/
def categoriesGetHandler (dbFail : Option JsError) (store : CategoryStore) : Outcome :=
  match dbFail with
  | some e => .response ⟨500, .errMsg e.message⟩
  | none =>
    if store.length = 0 then .response ⟨404, .msg "No categories found"⟩
    else .response ⟨200, .categories store⟩

/-- `categoryRoute.get("/", authenticateToken, authorizeRoles(["admin"]), ...)`:
the GET /categories route with its gate. -/
def categoriesGetRoute (secret : String) (now : Nat) (tok : Option Token)
    (dbFail : Option JsError) (store : CategoryStore) : Outcome :=
  runProtected secret now ["admin"] tok (fun _ => categoriesGetHandler dbFail store)

/-- The handler body of `categoryRoute.delete("/:id")`:
`Category.destroy({where: {id}})`; zero rows deleted yields 404
`{message: "Category not found"}`, otherwise 200; a thrown store error is
caught and answered 500 `{error: err.message}`.  Returns the outcome and the
resulting category table. -/
def categoryDeleteHandler (dbFail : Option JsError) (store : CategoryStore)
    (id : Nat) : Outcome × CategoryStore :=
  match dbFail with
  | some e => (.response ⟨500, .errMsg e.message⟩, store)
  | none =>
    let rowsDeleted := store.countP (fun c => c.id = id)
    if rowsDeleted = 0 then
      (.response ⟨404, .msg "Category not found"⟩, store)
    else
      (.response ⟨200, .msg "Category deleted successfully"⟩,
       store.filter (fun c => ¬ c.id = id))

/-- `categoryRoute.delete("/:id", authenticateToken, authorizeRoles(["admin"]), handler)`:
the DELETE /categories/:id route with its gate, over an arbitrary handler so
that "the handler does not run" is expressible. -/
def categoryDeleteRoute (secret : String) (now : Nat) (tok : Option Token)
    (handler : Identity → Outcome) : Outcome :=
  runProtected secret now ["admin"] tok handler

/-- The product table. -/
abbrev ProductStore := List ProductRec

/-- The body of a PATCH /products/:id request:
`const {name, description, price, categoryId} = req.body`. -/
structure ProductPatchBody where
  name : String
  description : String
  price : Int
  categoryId : Nat
deriving DecidableEq, Repr

/-- Property lookup on the value returned by `Product.update(...)`.  Sequelize's
`update` resolves to an ARRAY `[affectedCount]`; an array has the index `"0"`
and `"length"` as properties, but no property named `"updated"`, so
destructuring `const {updated} = await Product.update(...)` reads `undefined`
(`none`). -/
def sequelizeUpdateResultProp (affectedCount : Nat) (key : String) : Option Nat :=
  if key = "0" then some affectedCount
  else if key = "length" then some 1
  else none

/-- JavaScript truthiness of a possibly-`undefined` number: `undefined` and
`0` are falsy. -/
def jsTruthy : Option Nat → Bool
  | none => false
  | some n => ¬ n = 0

/-- `Product.update({name, description, price, categoryId}, {where: {id}})`
applied to the table: every row matching `id` gets the new field values. -/
def productUpdateRows (store : ProductStore) (id : Nat) (body : ProductPatchBody) :
    ProductStore :=
  store.map (fun p =>
    if p.id = id then
      { p with name := body.name, description := body.description,
               price := body.price, categoryId := body.categoryId }
    else p)

/-- The handler body of `productRoute.patch('/:id')`: destructures `{updated}`
from the Sequelize update result; if `updated` is truthy it refetches the
product with `Product.findOne` and answers 200 `{product}`, else it answers
200 `{message: "Product updated successfully"}`; a thrown error is caught and
answered 500 `{err}`.  Returns the outcome and the resulting product table. -/
def productPatchHandler (dbFail : Option JsError) (store : ProductStore)
    (id : Nat) (body : ProductPatchBody) : Outcome × ProductStore :=
  match dbFail with
  | some e => (.response ⟨500, .errRaw e⟩, store)
  | none =>
    let affectedCount := store.countP (fun p => p.id = id)
    let store1 := productUpdateRows store id body
    let updated := sequelizeUpdateResultProp affectedCount "updated"
    if jsTruthy updated then
      let updateProd := store1.find? (fun p => p.id = id)
      (.response ⟨200, .productOpt updateProd⟩, store1)
    else
      (.response ⟨200, .msg "Product updated successfully"⟩, store1)

/-- A concrete do-nothing handler used to instantiate gate theorems. -/
def probeHandler : Identity → Outcome :=
  fun _ => .response ⟨200, .msg "handler ran"⟩

/-- The status code of an outcome, when a response was sent at all. -/
def Outcome.statusOf : Outcome → Option Nat
  | .response r => some r.status
  | .uncaught _ => none

theorem find?_eq_none_append {α : Type} (p : α → Bool) (l₁ l₂ : List α)
    (h : l₁.find? p = none) : (l₁ ++ l₂).find? p = l₂.find? p := by
  induction l₁ with
  | nil => simp
  | cons a l ih =>
    cases hp : p a with
    | true =>
      rw [List.find?_cons_of_pos _ hp] at h
      exact absurd h (by simp)
    | false =>
      rw [List.find?_cons_of_neg _ (by simp [hp])] at h
      rw [List.cons_append, List.find?_cons_of_neg _ (by simp [hp])]
      exact ih h

theorem findByEmail_after_register (store : Store) (u : UserRec)
    (h : findByEmail store u.email = none) :
    findByEmail (store ++ [u]) u.email = some u := by
  unfold findByEmail at *
  rw [find?_eq_none_append _ _ _ h]
  simp [List.find?]

/-- C1: a user registered once with a valid (email, password) pair can log in
with the same pair: the response is 200 with body `{user, token}`, the token
is signed with the process secret, and its decoded claims carry the
registered user's id and role. -/
theorem C1_login_after_register
    (secret : String) (now salt nextId : Nat) (store store' : Store)
    (name email p role : String) (u : UserRec)
    (hreg : register salt none nextId store ⟨name, email, some p, role⟩ =
      (.response ⟨201, .userBody u⟩, store')) :
    login secret now none store' ⟨email, p⟩ =
      .response ⟨200, .userToken u (issueToken secret u.id u.role now)⟩ ∧
    (issueToken secret u.id u.role now).secret = secret ∧
    (issueToken secret u.id u.role now).id = u.id ∧
    (issueToken secret u.id u.role now).role = u.role := by
  cases hfind : findByEmail store email with
  | some v => simp [register, hfind] at hreg
  | none =>
    simp only [register, hfind, bcryptHash] at hreg
    obtain ⟨hu, hs⟩ := Prod.mk.injEq .. ▸ hreg
    have hu' : u = ⟨nextId, name, email, .bcryptHash 10 salt p, role⟩ := by
      cases hu
      rfl
    subst hu'
    have hs' : store' = store ++ [(⟨nextId, name, email, .bcryptHash 10 salt p, role⟩ : UserRec)] := hs.symm
    subst hs'
    have hfound := findByEmail_after_register store
      ⟨nextId, name, email, .bcryptHash 10 salt p, role⟩ hfind
    refine ⟨?_, rfl, rfl, rfl⟩
    simp [login, hfound, bcryptCompare]

theorem C1_login_after_register_witness :
    login "secretkey" 1000 none
        (register 7 none 1 [] ⟨"A", "a@x.com", some "pw", "user"⟩).2
        ⟨"a@x.com", "pw"⟩ =
      .response ⟨200, .userToken ⟨1, "A", "a@x.com", .bcryptHash 10 7 "pw", "user"⟩
        (issueToken "secretkey" 1 "user" 1000)⟩ :=
  (C1_login_after_register "secretkey" 1000 7 1 [] _ "A" "a@x.com" "pw" "user"
    ⟨1, "A", "a@x.com", .bcryptHash 10 7 "pw", "user"⟩ rfl).1

/-- C2: on DELETE /categories/:id, a missing token is answered 401 and a
valid non-admin token 403, in both cases before the handler runs (the outcome
is the same for every handler); the role authorizer permits an identity
exactly when its role belongs to the route's allowed-roles set. -/
theorem C2_delete_categories_gate
    (secret : String) (now : Nat) (t : Token) (handler : Identity → Outcome)
    (ident : Identity) (allowedRoles : List String)
    (hsec : t.secret = secret) (hexp : now < t.exp) (hrole : ¬ t.role = "admin") :
    categoryDeleteRoute secret now none handler =
      .response ⟨401, .msg "Unauthorized"⟩ ∧
    categoryDeleteRoute secret now (some t) handler =
      .response ⟨403, .msg "Forbidden"⟩ ∧
    (authorizeRoles allowedRoles ident = true ↔ ident.role ∈ allowedRoles) := by
  refine ⟨rfl, ?_, ?_⟩
  · simp [categoryDeleteRoute, runProtected, verifyToken, hsec, hexp,
      authorizeRoles, hrole]
  · simp [authorizeRoles]

theorem C2_delete_categories_gate_witness :
    categoryDeleteRoute "secretkey" 0 none probeHandler =
      .response ⟨401, .msg "Unauthorized"⟩ ∧
    categoryDeleteRoute "secretkey" 0 (some ⟨5, "user", 3600, "secretkey"⟩) probeHandler =
      .response ⟨403, .msg "Forbidden"⟩ ∧
    (authorizeRoles ["admin"] ⟨5, "user"⟩ = true ↔ ("user" : String) ∈ ["admin"]) :=
  C2_delete_categories_gate "secretkey" 0 ⟨5, "user", 3600, "secretkey"⟩
    probeHandler ⟨5, "user"⟩ ["admin"] rfl (by decide) (by decide)

/-- C3: every issued token expires exactly one hour (3600 s) after issuance —
the TTL is the fixed constant `tokenTTLSeconds`, not a parameter of
`issueToken` — and the verifier accepts the token 59 minutes after issuance
and rejects it 61 minutes after issuance. -/
theorem C3_token_ttl_one_hour (secret : String) (id : Nat) (role : String) (T : Nat) :
    (issueToken secret id role T).exp = T + tokenTTLSeconds ∧
    tokenTTLSeconds = 3600 ∧
    verifyToken secret (T + 59 * 60) (some (issueToken secret id role T)) =
      .ok ⟨id, role⟩ ∧
    verifyToken secret (T + 61 * 60) (some (issueToken secret id role T)) =
      .error .invalid := by
  refine ⟨rfl, rfl, ?_, ?_⟩ <;>
    simp [verifyToken, issueToken, tokenTTLSeconds]

/-- C4: registering an email already present in the store is answered 400
with the duplicate-user message, and the store is returned unchanged. -/
theorem C4_duplicate_register_rejected
    (salt nextId : Nat) (createFail : Option JsError)
    (store : Store) (req : RegisterReq) (u : UserRec)
    (hmem : u ∈ store) (hemail : u.email = req.email) :
    register salt createFail nextId store req =
      (.response ⟨400, .msg "User already exists"⟩, store) := by
  cases hfind : findByEmail store req.email with
  | some v => simp [register, hfind]
  | none =>
    exfalso
    have := List.find?_eq_none.mp hfind u hmem
    simp [hemail] at this

theorem C4_duplicate_register_rejected_witness :
    register 7 none 2 [⟨1, "A", "a@x.com", .bcryptHash 10 7 "pw", "user"⟩]
        ⟨"B", "a@x.com", some "pw2", "user"⟩ =
      (.response ⟨400, .msg "User already exists"⟩,
       [⟨1, "A", "a@x.com", .bcryptHash 10 7 "pw", "user"⟩]) :=
  C4_duplicate_register_rejected 7 2 none _ _
    ⟨1, "A", "a@x.com", .bcryptHash 10 7 "pw", "user"⟩ (by simp) rfl

/-- C5: the two failing login paths — unknown email, and known email with a
non-verifying password — both answer 401 with the same body
`{message: "Invalid credentials"}`, so the responses are equal. -/
theorem C5_login_failures_uniform
    (secret : String) (now : Nat) (s1 s2 : Store) (r1 r2 : LoginReq) (u : UserRec)
    (habsent : findByEmail s1 r1.email = none)
    (hfound : findByEmail s2 r2.email = some u)
    (hbad : bcryptCompare r2.password u.password = false) :
    login secret now none s1 r1 = .response ⟨401, .msg "Invalid credentials"⟩ ∧
    login secret now none s2 r2 = .response ⟨401, .msg "Invalid credentials"⟩ ∧
    login secret now none s1 r1 = login secret now none s2 r2 := by
  refine ⟨?_, ?_, ?_⟩ <;> simp [login, habsent, hfound, hbad]

theorem C5_login_failures_uniform_witness :
    login "secretkey" 0 none [] ⟨"ghost@x.com", "pw"⟩ =
      .response ⟨401, .msg "Invalid credentials"⟩ ∧
    login "secretkey" 0 none [⟨1, "A", "a@x.com", .bcryptHash 10 7 "pw", "user"⟩]
        ⟨"a@x.com", "wrong"⟩ =
      .response ⟨401, .msg "Invalid credentials"⟩ ∧
    login "secretkey" 0 none [] ⟨"ghost@x.com", "pw"⟩ =
      login "secretkey" 0 none [⟨1, "A", "a@x.com", .bcryptHash 10 7 "pw", "user"⟩]
        ⟨"a@x.com", "wrong"⟩ :=
  C5_login_failures_uniform "secretkey" 0 [] _ ⟨"ghost@x.com", "pw"⟩ ⟨"a@x.com", "wrong"⟩
    ⟨1, "A", "a@x.com", .bcryptHash 10 7 "pw", "user"⟩ rfl rfl (by decide)

/-- C6: when registration succeeds (201 with body `{user}`), the stored
password field is the bcrypt hash of the submitted plaintext — never a plain
(unhashed) string — and the user record in the response body is exactly the
record appended to the store (the hash is serialized only as part of what the
store returns). -/
theorem C6_stored_password_is_bcrypt_hash
    (salt nextId : Nat) (createFail : Option JsError)
    (store store' : Store) (req : RegisterReq) (u : UserRec) (p s : String)
    (hpw : req.password = some p)
    (hreg : register salt createFail nextId store req =
      (.response ⟨201, .userBody u⟩, store')) :
    u.password = .bcryptHash 10 salt p ∧
    ¬ u.password = .plain s ∧
    store' = store ++ [u] := by
  cases hfind : findByEmail store req.email with
  | some v => simp [register, hfind] at hreg
  | none =>
    cases hcf : createFail with
    | some e => simp [register, hfind, bcryptHash, hpw, hcf] at hreg
    | none =>
      simp only [register, hfind, bcryptHash, hpw, hcf] at hreg
      obtain ⟨h1, h2⟩ := Prod.mk.injEq .. ▸ hreg
      have hu : u = ⟨nextId, req.name, req.email, .bcryptHash 10 salt p, req.role⟩ := by
        cases h1
        rfl
      subst hu
      exact ⟨rfl, by simp, h2.symm⟩

theorem C6_stored_password_is_bcrypt_hash_witness :
    (⟨1, "A", "a@x.com", .bcryptHash 10 7 "pw", "user"⟩ : UserRec).password =
      .bcryptHash 10 7 "pw" ∧
    ¬ (⟨1, "A", "a@x.com", .bcryptHash 10 7 "pw", "user"⟩ : UserRec).password =
      .plain "pw" ∧
    ([] : Store) ++ [⟨1, "A", "a@x.com", .bcryptHash 10 7 "pw", "user"⟩] =
      [] ++ [⟨1, "A", "a@x.com", .bcryptHash 10 7 "pw", "user"⟩] :=
  C6_stored_password_is_bcrypt_hash 7 1 none [] _
    ⟨"A", "a@x.com", some "pw", "user"⟩
    ⟨1, "A", "a@x.com", .bcryptHash 10 7 "pw", "user"⟩ "pw" "pw" rfl rfl

/-- C7 counterexample: a register request whose `User.create` throws a store
error is answered 500 with the RAW exception object — name, driver message
and stack — serialized in the body (`res.json({err})`), contradicting the
claim that no internal error detail appears in any response body. -/
theorem C7_raw_error_in_body_cex :
    (register 0
        (some ⟨"SequelizeConnectionError", "connect ECONNREFUSED 127.0.0.1:3306",
               "SequelizeConnectionError: connect ECONNREFUSED\n    at Client ..."⟩)
        1 [] ⟨"A", "a@x.com", some "pw", "user"⟩).1 =
      .response ⟨500, .errRaw
        ⟨"SequelizeConnectionError", "connect ECONNREFUSED 127.0.0.1:3306",
         "SequelizeConnectionError: connect ECONNREFUSED\n    at Client ..."⟩⟩ ∧
    Body.carriesRawError (.errRaw
        ⟨"SequelizeConnectionError", "connect ECONNREFUSED 127.0.0.1:3306",
         "SequelizeConnectionError: connect ECONNREFUSED\n    at Client ..."⟩) = true :=
  ⟨rfl, rfl⟩

/-- C7 amended: handlers do catch store errors at the request boundary and
map them to HTTP 500, but the register, login and product-patch handlers
serialize the raw caught exception object into the body (`{err}`), and the
category handlers serialize the driver error's message (`{error: err.message}`):
internal error detail does appear in response bodies. -/
theorem C7_caught_errors_serialized
    (e : JsError) (salt nextId now cid pid : Nat) (secret : String)
    (store : Store) (req : RegisterReq) (lreq : LoginReq)
    (cstore : CategoryStore) (pstore : ProductStore) (pbody : ProductPatchBody)
    (p : String)
    (hfresh : findByEmail store req.email = none)
    (hpw : req.password = some p) :
    (register salt (some e) nextId store req).1 = .response ⟨500, .errRaw e⟩ ∧
    login secret now (some e) store lreq = .response ⟨500, .errRaw e⟩ ∧
    (productPatchHandler (some e) pstore pid pbody).1 = .response ⟨500, .errRaw e⟩ ∧
    (categoryDeleteHandler (some e) cstore cid).1 =
      .response ⟨500, .errMsg e.message⟩ ∧
    Body.carriesRawError (.errRaw e) = true := by
  refine ⟨?_, rfl, rfl, rfl, rfl⟩
  simp [register, hfresh, bcryptHash, hpw]

theorem C7_caught_errors_serialized_witness :
    (register 0 (some ⟨"Error", "db down", "stack"⟩) 1 []
        ⟨"A", "a@x.com", some "pw", "user"⟩).1 =
      .response ⟨500, .errRaw ⟨"Error", "db down", "stack"⟩⟩ ∧
    login "secretkey" 0 (some ⟨"Error", "db down", "stack"⟩) [] ⟨"a@x.com", "pw"⟩ =
      .response ⟨500, .errRaw ⟨"Error", "db down", "stack"⟩⟩ ∧
    (productPatchHandler (some ⟨"Error", "db down", "stack"⟩) [] 1
        ⟨"n", "d", 1, 1⟩).1 =
      .response ⟨500, .errRaw ⟨"Error", "db down", "stack"⟩⟩ ∧
    (categoryDeleteHandler (some ⟨"Error", "db down", "stack"⟩) [] 1).1 =
      .response ⟨500, .errMsg "db down"⟩ ∧
    Body.carriesRawError (.errRaw ⟨"Error", "db down", "stack"⟩) = true :=
  C7_caught_errors_serialized ⟨"Error", "db down", "stack"⟩ 0 1 0 1 1 "secretkey"
    [] ⟨"A", "a@x.com", some "pw", "user"⟩ ⟨"a@x.com", "pw"⟩ [] []
    ⟨"n", "d", 1, 1⟩ "pw" rfl rfl

/-- C8: the hasher contract holds (hashing a missing or empty plaintext fails
with an InvalidInput error; verify against a corrupt, non-bcrypt stored form
returns false), BUT a hashing failure inside POST /user/register is NOT
contained: `bcrypt.hash` is called before the try block, so on a fresh email
with a missing password the rejection escapes the handler uncaught and no
response is produced. -/
theorem C8_hash_failure_escapes_handler
    (salt nextId : Nat) (createFail : Option JsError)
    (store : Store) (req : RegisterReq) (s corrupt : String)
    (hfresh : findByEmail store req.email = none)
    (hmissing : req.password = none) :
    hasherHash salt none =
      .error ⟨"InvalidInput", "data and salt arguments required", ""⟩ ∧
    hasherHash salt (some "") = .error ⟨"InvalidInput", "empty plaintext", ""⟩ ∧
    bcryptCompare s (.plain corrupt) = false ∧
    register salt createFail nextId store req =
      (.uncaught bcryptMissingDataError, store) := by
  refine ⟨rfl, rfl, rfl, ?_⟩
  simp [register, hfresh, bcryptHash, hmissing]

theorem C8_hash_failure_escapes_handler_witness :
    hasherHash 0 none =
      .error ⟨"InvalidInput", "data and salt arguments required", ""⟩ ∧
    hasherHash 0 (some "") = .error ⟨"InvalidInput", "empty plaintext", ""⟩ ∧
    bcryptCompare "pw" (.plain "not-a-bcrypt-string") = false ∧
    register 0 none 1 [] ⟨"A", "a@x.com", none, "user"⟩ =
      (.uncaught bcryptMissingDataError, []) :=
  C8_hash_failure_escapes_handler 0 1 none [] ⟨"A", "a@x.com", none, "user"⟩
    "pw" "not-a-bcrypt-string" rfl rfl

/-- C9: in PATCH /products/:id, the destructured `updated` field of the
Sequelize update result is always `undefined` (an array has no `updated`
property), so whenever the update call does not throw the response is 200
with message "Product updated successfully" — the refetch branch is
unreachable and a nonexistent id never yields 404. -/
theorem C9_product_patch_branch_unreachable
    (store : ProductStore) (id : Nat) (body : ProductPatchBody) (a : Nat) :
    sequelizeUpdateResultProp a "updated" = none ∧
    (productPatchHandler none store id body).1 =
      .response ⟨200, .msg "Product updated successfully"⟩ ∧
    ¬ (productPatchHandler none store id body).1.statusOf = some 404 := by
  refine ⟨rfl, rfl, by
    simp [productPatchHandler, sequelizeUpdateResultProp, jsTruthy, Outcome.statusOf]⟩

/-- C10: for an authenticated admin request to GET /categories, an empty
category table is answered 404 with message "No categories found" (not 200
with an empty list), and a nonempty table is answered 200 with the full
list. -/
theorem C10_categories_get_empty_404
    (secret : String) (now : Nat) (t : Token) (store : CategoryStore)
    (hsec : t.secret = secret) (hexp : now < t.exp) (hrole : t.role = "admin")
    (hne : ¬ store = []) :
    categoriesGetRoute secret now (some t) none [] =
      .response ⟨404, .msg "No categories found"⟩ ∧
    ¬ categoriesGetRoute secret now (some t) none [] =
      .response ⟨200, .categories []⟩ ∧
    categoriesGetRoute secret now (some t) none store =
      .response ⟨200, .categories store⟩ := by
  have hv : verifyToken secret now (some t) = .ok ⟨t.id, t.role⟩ := by
    simp [verifyToken, hsec, hexp]
  have ha : authorizeRoles ["admin"] ⟨t.id, t.role⟩ = true := by
    simp [authorizeRoles, hrole]
  refine ⟨?_, ?_, ?_⟩ <;>
    simp [categoriesGetRoute, runProtected, hv, ha, categoriesGetHandler,
      List.length_eq_zero, hne]

theorem C10_categories_get_empty_404_witness :
    categoriesGetRoute "secretkey" 0 (some ⟨9, "admin", 3600, "secretkey"⟩) none [] =
      .response ⟨404, .msg "No categories found"⟩ ∧
    ¬ categoriesGetRoute "secretkey" 0 (some ⟨9, "admin", 3600, "secretkey"⟩) none [] =
      .response ⟨200, .categories []⟩ ∧
    categoriesGetRoute "secretkey" 0 (some ⟨9, "admin", 3600, "secretkey"⟩) none
        [⟨1, "shoes"⟩] =
      .response ⟨200, .categories [⟨1, "shoes"⟩]⟩ :=
  C10_categories_get_empty_404 "secretkey" 0 ⟨9, "admin", 3600, "secretkey"⟩
    [⟨1, "shoes"⟩] rfl (by decide) rfl (by decide)

end AllSports
